import Mathlib

/-!
# Book store data-access layer (`myproject/main.go`)

A shallow embedding of `PostgresDatabase` and its constructor, the four data
operations, `Close` and `main`, over an explicit interface to Go's
`database/sql` package, followed by the properties of the storage contract.

Conventions of the embedding.

* A Go `error` value is observed by this code in two ways only: by identity
  against the sentinel `sql.ErrNoRows`, and through its `Error()` text when it
  is formatted with `%v`.  `GoError` keeps exactly that.
* A Go result pair `(v, err)` is a Lean pair whose second component is an
  `Option GoError` (`none` is `nil`); a `nil` pointer is `none`, a `nil` slice
  is `[]`, the zero string is `""`.
* The `database/sql` package is the record `Sql σ`: every call takes the state
  of the outside world and returns the new one.
-/

set_option autoImplicit false

namespace BookDB

/-! ## Go values -/

/-- Go `error` values as this program observes them. -/
inductive GoError where
  /-- The sentinel `sql.ErrNoRows`. -/
  | ErrNoRows
  /-- Any other error value, with its `Error()` text. -/
  | text (msg : String)
  deriving DecidableEq, Repr

/-- The `Error()` method. -/
def GoError.Error : GoError → String
  | .ErrNoRows => "sql: no rows in result set"
  | .text msg => msg

/-- The call `fmt.Errorf(msg)` with a format that has no verb. -/
def Errorf0 (msg : String) : GoError := .text msg

/-- The call `fmt.Errorf(pre + "%v", err)`: the text of `err` is appended. -/
def Errorf (pre : String) (err : GoError) : GoError := .text (pre ++ err.Error)

/-- The type `time.Duration`: a count of nanoseconds. -/
abbrev Duration := Int

/-- The constant `time.Second`. -/
def Second : Duration := 1000000000

/-- The constant `time.Minute`. -/
def Minute : Duration := 60 * Second

/-- A `context.Context`, as built by the two constructors the program uses. -/
inductive Context where
  /-- The value of `context.Background()`. -/
  | Background
  /-- The value of `context.WithTimeout(parent, timeout)`. -/
  | WithTimeout (parent : Context) (timeout : Duration)
  deriving DecidableEq, Repr

/-- A positional statement argument. -/
inductive SqlArg where
  | int (n : Int)
  | string (s : String)
  deriving DecidableEq, Repr

/-- The cursor `*sql.Rows` of a one-column query: one entry for every time
`Next()` answers `true`, holding what `Scan(&title)` then yields, and the value
of `Err()` once `Next()` has answered `false`. -/
structure Rows where
  items : List (Except GoError String)
  err : Option GoError

/-- The value `sql.Result`, of which only `RowsAffected()` is used. -/
structure Result where
  RowsAffected : Except GoError Int

/-- A pool handle `*sql.DB`. -/
abbrev Handle := Nat

/-- The `database/sql` calls made by the program, over a world state `σ`. -/
structure Sql (σ : Type) where
  Open : String → String → σ → Except GoError Handle × σ
  SetMaxOpenConns : Handle → Int → σ → σ
  SetMaxIdleConns : Handle → Int → σ → σ
  SetConnMaxLifetime : Handle → Duration → σ → σ
  PingContext : Handle → Context → σ → Option GoError × σ
  /-- The composite `QueryRowContext(ctx, query, args...).Scan(&title)`. -/
  QueryRowContext : Handle → Context → String → List SqlArg → σ → Except GoError String × σ
  Query : Handle → String → List SqlArg → σ → Except GoError Rows × σ
  ExecContext : Handle → Context → String → List SqlArg → σ → Except GoError Result × σ
  Close : Handle → σ → Option GoError × σ

/-! ## The program -/

/-- The struct `PostgresDatabase`. -/
structure PostgresDatabase where
  db : Handle
  deriving DecidableEq, Repr

/-- The connection string literal of `main`. -/
def connStr : String :=
  "host=localhost port=5432 user=bookstore_user password=your_strong_password dbname=bookstore sslmode=disable"

/-- The function `NewPostgresDatabase`. -/
def NewPostgresDatabase {σ : Type} (S : Sql σ) (connStr : String) (w : σ) :
    (Option PostgresDatabase × Option GoError) × σ :=
  match S.Open "postgres" connStr w with
  | (.error err, w1) => ((none, some (Errorf "failed to connect to database: " err)), w1)
  | (.ok db, w1) =>
    let w2 := S.SetMaxOpenConns db 25 w1
    let w3 := S.SetMaxIdleConns db 10 w2
    let w4 := S.SetConnMaxLifetime db (5 * Minute) w3
    let ctx := Context.WithTimeout Context.Background (5 * Second)
    match S.PingContext db ctx w4 with
    | (some err, w5) => ((none, some (Errorf "failed to ping database: " err)), w5)
    | (none, w5) => ((some { db := db }, none), w5)

/-- The method `GetBook`. -/
def PostgresDatabase.GetBook {σ : Type} (S : Sql σ) (pdb : PostgresDatabase)
    (ctx : Context) (id : Int) (w : σ) : (String × Option GoError) × σ :=
  match S.QueryRowContext pdb.db ctx "SELECT title FROM books WHERE id = $1" [.int id] w with
  | (.error err, w1) =>
    if err = GoError.ErrNoRows then
      (("", some (Errorf0 "book not found")), w1)
    else
      (("", some (Errorf "failed to get book: " err)), w1)
  | (.ok title, w1) => ((title, none), w1)

/-- The loop `for rows.Next()` of `GetAllBooks`: the titles appended so far,
or the error of the first `Scan` that fails. -/
def scanTitles : List (Except GoError String) → List String → Except GoError (List String)
  | [], titles => .ok titles
  | .error err :: _, _ => .error err
  | .ok title :: rest, titles => scanTitles rest (titles ++ [title])

/-- The method `GetAllBooks`. -/
def PostgresDatabase.GetAllBooks {σ : Type} (S : Sql σ) (pdb : PostgresDatabase)
    (w : σ) : (List String × Option GoError) × σ :=
  match S.Query pdb.db "SELECT title FROM books" [] w with
  | (.error err, w1) => (([], some (Errorf "failed to query books: " err)), w1)
  | (.ok rows, w1) =>
    match scanTitles rows.items [] with
    | .error err => (([], some (Errorf "failed to scan book title: " err)), w1)
    | .ok titles =>
      match rows.err with
      | some err => (([], some (Errorf "error iterating over books: " err)), w1)
      | none => ((titles, none), w1)

/-- The method `AddBook`. -/
def PostgresDatabase.AddBook {σ : Type} (S : Sql σ) (pdb : PostgresDatabase)
    (ctx : Context) (title : String) (w : σ) : Option GoError × σ :=
  match S.ExecContext pdb.db ctx "INSERT INTO books (title) VALUES ($1)" [.string title] w with
  | (.error err, w1) => (some (Errorf "failed to add book: " err), w1)
  | (.ok _, w1) => (none, w1)

/-- The method `DeleteBook`. -/
def PostgresDatabase.DeleteBook {σ : Type} (S : Sql σ) (pdb : PostgresDatabase)
    (ctx : Context) (id : Int) (w : σ) : Option GoError × σ :=
  match S.ExecContext pdb.db ctx "DELETE FROM books WHERE id = $1" [.int id] w with
  | (.error err, w1) => (some (Errorf "failed to delete book: " err), w1)
  | (.ok result, w1) =>
    match result.RowsAffected with
    | .error err => (some (Errorf "failed to get rows affected: " err), w1)
    | .ok rowsAffected =>
      if rowsAffected = 0 then
        (some (Errorf0 "book not found"), w1)
      else
        (none, w1)

/-- The method `Close`. -/
def PostgresDatabase.Close {σ : Type} (S : Sql σ) (pdb : PostgresDatabase)
    (w : σ) : Option GoError × σ :=
  S.Close pdb.db w

/-- What `main` writes: a line on standard output, a `log.Printf` record, the
`log.Fatalf` record that ends the process, or a run-time panic. -/
inductive Output where
  | stdout (line : String)
  | log (msg : String)
  | fatal (msg : String)
  | panic (msg : String)
  deriving DecidableEq, Repr

/-- The function `main`.  The deferred calls run when the body returns, last
registered first: `cancel()`, then `db.Close()`, whose result is dropped.
`log.Fatalf` ends the process on the spot. -/
def main {σ : Type} (S : Sql σ) (w : σ) : List Output × σ :=
  match NewPostgresDatabase S connStr w with
  | ((_, some err), w1) => ([.fatal ("Failed to connect to database: " ++ err.Error)], w1)
  | ((none, none), w1) => ([.panic "invalid memory address or nil pointer dereference"], w1)
  | ((some db, none), w1) =>
    let ctx := Context.WithTimeout Context.Background (5 * Second)
    let (err, w2) := db.AddBook S ctx "The Go Programming Language" w1
    let out1 :=
      match err with
      | some e => [Output.log ("Failed to add book: " ++ e.Error)]
      | none => [Output.stdout "Book added successfully"]
    let ((title, err), w3) := db.GetBook S ctx 1 w2
    let out2 :=
      match err with
      | some e => [Output.log ("Failed to get book: " ++ e.Error)]
      | none => [Output.stdout ("Book title: " ++ title)]
    let (err, w4) := db.DeleteBook S ctx 1 w3
    let out3 :=
      match err with
      | some e => [Output.log ("Failed to delete book: " ++ e.Error)]
      | none => [Output.stdout "Book deleted successfully"]
    let (_, w5) := db.Close S w4
    (out1 ++ out2 ++ out3, w5)

/-! ## The error taxonomy

The program has no error types: the two kinds of the storage contract are told
apart by the text of the error, which is all a caller of this code can see. -/

/-- The two failure kinds of the storage contract. -/
inductive ErrorKind where
  | NotFoundError
  | BackendError
  deriving DecidableEq, Repr

/-- The kind of an error returned by a data operation: the text
`book not found` is the not-found report, any other text a backend failure. -/
def GoError.kind (err : GoError) : ErrorKind :=
  if err.Error = "book not found" then .NotFoundError else .BackendError

/-! ## Recording the calls -/

/-- One call of the `database/sql` interface, with its arguments. -/
inductive Call where
  | Open (driverName dataSourceName : String)
  | SetMaxOpenConns (db : Handle) (n : Int)
  | SetMaxIdleConns (db : Handle) (n : Int)
  | SetConnMaxLifetime (db : Handle) (d : Duration)
  | PingContext (db : Handle) (ctx : Context)
  | QueryRowContext (db : Handle) (ctx : Context) (query : String) (args : List SqlArg)
  | Query (db : Handle) (query : String) (args : List SqlArg)
  | ExecContext (db : Handle) (ctx : Context) (query : String) (args : List SqlArg)
  | Close (db : Handle)
  deriving DecidableEq, Repr

/-- The interface `S` with every call appended to a journal kept beside the
world state.  The answers of `S` are passed through untouched. -/
def Sql.traced {σ : Type} (S : Sql σ) : Sql (σ × List Call) where
  Open d c w := ((S.Open d c w.1).1, ((S.Open d c w.1).2, w.2 ++ [.Open d c]))
  SetMaxOpenConns h n w := (S.SetMaxOpenConns h n w.1, w.2 ++ [.SetMaxOpenConns h n])
  SetMaxIdleConns h n w := (S.SetMaxIdleConns h n w.1, w.2 ++ [.SetMaxIdleConns h n])
  SetConnMaxLifetime h d w := (S.SetConnMaxLifetime h d w.1, w.2 ++ [.SetConnMaxLifetime h d])
  PingContext h ctx w :=
    ((S.PingContext h ctx w.1).1, ((S.PingContext h ctx w.1).2, w.2 ++ [.PingContext h ctx]))
  QueryRowContext h ctx q a w :=
    ((S.QueryRowContext h ctx q a w.1).1,
      ((S.QueryRowContext h ctx q a w.1).2, w.2 ++ [.QueryRowContext h ctx q a]))
  Query h q a w := ((S.Query h q a w.1).1, ((S.Query h q a w.1).2, w.2 ++ [.Query h q a]))
  ExecContext h ctx q a w :=
    ((S.ExecContext h ctx q a w.1).1,
      ((S.ExecContext h ctx q a w.1).2, w.2 ++ [.ExecContext h ctx q a]))
  Close h w := ((S.Close h w.1).1, ((S.Close h w.1).2, w.2 ++ [.Close h]))

/-! ## A well-behaved backend

The relational backend is outside the repository.  The model below is the
backend the storage contract assumes (spec §3, §6): one table `books` with an
auto-assigned integer key and a text title, behind pools that answer after a
fixed latency. -/

/-- Modelled from the spec: the state of the relational backend and of the
pools opened on it, which the repository does not contain.  `rows` is the table
`books` in cursor order, `nextId` the next key the backend assigns, `pools`
holds for every pool handed out by `sql.Open` the number of times it has been
closed, `latency` is the time the backend takes to answer one call, and
`openErr` is the failure `sql.Open` reports, if any. -/
structure World where
  rows : List (Int × String)
  nextId : Int
  pools : List Nat
  latency : Duration
  openErr : Option GoError
  deriving DecidableEq, Repr

/-- The time budget of a context: the smallest timeout on the way to
`Background`, if there is one. -/
def Context.budget : Context → Option Duration
  | .Background => none
  | .WithTimeout parent timeout =>
    match parent.budget with
    | none => some timeout
    | some d => some (min timeout d)

/-- The deadline of `ctx` elapses before the backend answers. -/
def World.expired (w : World) (ctx : Context) : Bool :=
  match ctx.budget with
  | none => false
  | some d => decide (d < w.latency)

/-- Pool `h` has been opened and not closed. -/
def World.isOpen (w : World) (h : Handle) : Bool :=
  decide (w.pools.get? h = some 0)

/-- What stops a call on pool `h` under `ctx` before it reaches the table:
a closed pool, or a deadline that runs out first. -/
def World.refusal (w : World) (h : Handle) (ctx : Context) : Option GoError :=
  if w.isOpen h then
    if w.expired ctx then some (.text "context deadline exceeded") else none
  else some (.text "sql: database is closed")

/-- Modelled from the spec: the `database/sql` package over the backend of
`World`, which the repository does not contain.  A statement is recognised by
its text and the shape of its arguments; insert appends a row under a fresh
key, delete removes the rows with the given key and reports how many, the
single-row select yields the first title with the given key or
`sql.ErrNoRows`, and the multi-row select yields every title in table order.
`Query` runs under `context.Background()`, as `(*sql.DB).Query` does. -/
def World.sql : Sql World where
  Open driverName _ w :=
    if driverName = "postgres" then
      match w.openErr with
      | some err => (.error err, w)
      | none => (.ok w.pools.length, { w with pools := w.pools ++ [0] })
    else (.error (.text ("sql: unknown driver " ++ driverName)), w)
  SetMaxOpenConns _ _ w := w
  SetMaxIdleConns _ _ w := w
  SetConnMaxLifetime _ _ w := w
  PingContext h ctx w := (w.refusal h ctx, w)
  QueryRowContext h ctx q args w :=
    match w.refusal h ctx with
    | some err => (.error err, w)
    | none =>
      match args with
      | [.int id] =>
        if q = "SELECT title FROM books WHERE id = $1" then
          match w.rows.find? (fun r => decide (r.1 = id)) with
          | some r => (.ok r.2, w)
          | none => (.error .ErrNoRows, w)
        else (.error (.text "pq: statement not supported"), w)
      | _ => (.error (.text "pq: statement not supported"), w)
  Query h q args w :=
    match w.refusal h .Background with
    | some err => (.error err, w)
    | none =>
      match args with
      | [] =>
        if q = "SELECT title FROM books" then
          (.ok { items := w.rows.map (fun r => .ok r.2), err := none }, w)
        else (.error (.text "pq: statement not supported"), w)
      | _ => (.error (.text "pq: statement not supported"), w)
  ExecContext h ctx q args w :=
    match w.refusal h ctx with
    | some err => (.error err, w)
    | none =>
      match args with
      | [.string title] =>
        if q = "INSERT INTO books (title) VALUES ($1)" then
          (.ok { RowsAffected := .ok 1 },
            { w with rows := w.rows ++ [(w.nextId, title)], nextId := w.nextId + 1 })
        else (.error (.text "pq: statement not supported"), w)
      | [.int id] =>
        if q = "DELETE FROM books WHERE id = $1" then
          (.ok { RowsAffected := .ok (w.rows.countP (fun r => decide (r.1 = id))) },
            { w with rows := w.rows.filter (fun r => !decide (r.1 = id)) })
        else (.error (.text "pq: statement not supported"), w)
      | _ => (.error (.text "pq: statement not supported"), w)
  Close h w := (none, { w with pools := w.pools.set h (w.pools.getD h 0 + 1) })

/-- The table keeps its keys unique and below the next key to assign. -/
def World.uniqueIds (w : World) : Prop :=
  (w.rows.map Prod.fst).Nodup ∧ ∀ r ∈ w.rows, r.1 < w.nextId

/-- A backend with an empty table and no pool yet, answering in a millisecond. -/
def World.fresh : World :=
  { rows := [], nextId := 1, pools := [], latency := 1000000, openErr := none }

/-- The store handle on the first pool. -/
def store0 : PostgresDatabase := { db := 0 }

/-- The context `main` builds: five seconds from `Background`. -/
def ctx5 : Context := .WithTimeout .Background (5 * Second)

/-- The backend after `Alpha` and `Beta` were inserted through the first pool. -/
def World.alphaBeta : World :=
  { rows := [(1, "Alpha"), (2, "Beta")], nextId := 3, pools := [0], latency := 1000000,
    openErr := none }

/-- A backend holding one book behind an open pool, answering in six seconds. -/
def World.slow : World :=
  { rows := [(1, "Alpha")], nextId := 2, pools := [0], latency := 6 * Second, openErr := none }

/-- A backend with an empty table and no pool yet, answering in six seconds. -/
def World.unreachable : World :=
  { rows := [], nextId := 1, pools := [], latency := 6 * Second, openErr := none }

/-! ## Fixed answers

A stateless interface that answers every call of one kind in one fixed way.
It reaches the branches the table backend never takes: a row that fails to
scan, a cursor error, an affected-row count that cannot be read. -/

/-- The answer given to each kind of call. -/
structure Answers where
  opened : Except GoError Handle
  ping : Option GoError
  row : Except GoError String
  rows : Except GoError Rows
  exec : Except GoError Result

/-- The interface answering as `a` says. -/
def Answers.sql (a : Answers) : Sql Unit where
  Open _ _ w := (a.opened, w)
  SetMaxOpenConns _ _ w := w
  SetMaxIdleConns _ _ w := w
  SetConnMaxLifetime _ _ w := w
  PingContext _ _ w := (a.ping, w)
  QueryRowContext _ _ _ _ w := (a.row, w)
  Query _ _ _ w := (a.rows, w)
  ExecContext _ _ _ _ w := (a.exec, w)
  Close _ w := (none, w)

/-- A cursor whose second row fails to scan, after `Alpha` and before `Beta`. -/
def Rows.badSecond : Rows :=
  { items := [.ok "Alpha", .error (.text "converting NULL to string is unsupported"), .ok "Beta"],
    err := none }

/-- A cursor that delivers `Alpha` and then breaks. -/
def Rows.broken : Rows :=
  { items := [.ok "Alpha"], err := some (.text "unexpected EOF") }

/-- Answers of a driver whose connection is lost: every call fails. -/
def Answers.down : Answers :=
  { opened := .error (.text "missing \"=\" after \"x\" in connection info string"),
    ping := some (.text "connection refused"),
    row := .error (.text "connection refused"),
    rows := .error (.text "connection refused"),
    exec := .error (.text "connection refused") }

/-- Answers of a driver that runs the statements but delivers a cursor whose
second row fails to scan and cannot report affected rows. -/
def Answers.faulty : Answers :=
  { opened := .ok 0,
    ping := some (.text "connection refused"),
    row := .error (.text "book not found"),
    rows := .ok Rows.badSecond,
    exec := .ok { RowsAffected := .error (.text "no RowsAffected available") } }

/-- Answers of a driver that delivers a cursor breaking after its first row. -/
def Answers.cut : Answers :=
  { opened := .ok 0,
    ping := none,
    row := .ok "Alpha",
    rows := .ok Rows.broken,
    exec := .ok { RowsAffected := .ok 3 } }

/-! ## Properties -/

/-! ### Error texts -/

theorem text_ne_not_found (pre s : String) (c : Char) (rest : List Char)
    (hpre : pre.data = c :: rest) (hc : c ≠ 'b') : pre ++ s ≠ "book not found" := by
  intro h
  have h2 := congrArg String.data h
  rw [String.data_append, hpre] at h2
  have h3 : c = 'b' := by
    have h4 := congrArg List.head? h2
    simpa using h4
  exact hc h3

theorem Errorf_injective (pre : String) (e1 e2 : GoError) (h1 : e1 ≠ .ErrNoRows)
    (h2 : e2 ≠ .ErrNoRows) (h : Errorf pre e1 = Errorf pre e2) : e1 = e2 := by
  cases e1 with
  | ErrNoRows => exact absurd rfl h1
  | text a =>
    cases e2 with
    | ErrNoRows => exact absurd rfl h2
    | text b =>
      have h3 : pre ++ a = pre ++ b := by
        simpa [Errorf, GoError.Error] using h
      have h4 := congrArg String.data h3
      rw [String.data_append, String.data_append] at h4
      have h5 : a.data = b.data := List.append_cancel_left h4
      rw [String.ext h5]

theorem kind_not_found : (Errorf0 "book not found").kind = ErrorKind.NotFoundError := by
  simp [Errorf0, GoError.kind, GoError.Error]

theorem kind_failed (tail : String) (err : GoError) :
    (Errorf ("failed to " ++ tail) err).kind = ErrorKind.BackendError := by
  have h : ("failed to " ++ tail) ++ err.Error ≠ "book not found" := by
    rw [String.append_assoc]
    exact text_ne_not_found _ _ 'f' "ailed to ".data rfl (by decide)
  have h2 : (Errorf ("failed to " ++ tail) err).Error = ("failed to " ++ tail) ++ err.Error := rfl
  rw [GoError.kind, h2, if_neg h]

theorem kind_iterating (err : GoError) :
    (Errorf "error iterating over books: " err).kind = ErrorKind.BackendError := by
  have h : "error iterating over books: " ++ err.Error ≠ "book not found" :=
    text_ne_not_found _ _ 'e' "rror iterating over books: ".data rfl (by decide)
  have h2 : (Errorf "error iterating over books: " err).Error
      = "error iterating over books: " ++ err.Error := rfl
  rw [GoError.kind, h2, if_neg h]

theorem kind_get (err : GoError) :
    (Errorf "failed to get book: " err).kind = ErrorKind.BackendError :=
  kind_failed "get book: " err

/-! ### `GetBook` -/

theorem GetBook_ok {σ : Type} (S : Sql σ) (pdb : PostgresDatabase) (ctx : Context) (id : Int)
    (w : σ) (title : String)
    (h : (S.QueryRowContext pdb.db ctx "SELECT title FROM books WHERE id = $1" [.int id] w).1
      = .ok title) :
    (pdb.GetBook S ctx id w).1 = (title, none) := by
  unfold PostgresDatabase.GetBook
  split
  · rename_i err w1 heq
    rw [heq] at h
    cases h
  · rename_i t w1 heq
    rw [heq] at h
    cases h
    rfl

theorem GetBook_no_rows {σ : Type} (S : Sql σ) (pdb : PostgresDatabase) (ctx : Context)
    (id : Int) (w : σ)
    (h : (S.QueryRowContext pdb.db ctx "SELECT title FROM books WHERE id = $1" [.int id] w).1
      = .error .ErrNoRows) :
    (pdb.GetBook S ctx id w).1 = ("", some (Errorf0 "book not found")) := by
  unfold PostgresDatabase.GetBook
  split
  · rename_i err w1 heq
    rw [heq] at h
    cases h
    simp
  · rename_i t w1 heq
    rw [heq] at h
    cases h

theorem GetBook_failure {σ : Type} (S : Sql σ) (pdb : PostgresDatabase) (ctx : Context)
    (id : Int) (w : σ) (err : GoError) (hne : err ≠ .ErrNoRows)
    (h : (S.QueryRowContext pdb.db ctx "SELECT title FROM books WHERE id = $1" [.int id] w).1
      = .error err) :
    (pdb.GetBook S ctx id w).1 = ("", some (Errorf "failed to get book: " err)) := by
  unfold PostgresDatabase.GetBook
  split
  · rename_i err2 w1 heq
    rw [heq] at h
    cases h
    simp [hne]
  · rename_i t w1 heq
    rw [heq] at h
    cases h

theorem get_wrap_ne_not_found (err : GoError) :
    Errorf "failed to get book: " err ≠ Errorf0 "book not found" := by
  intro h
  have h1 := congrArg GoError.kind h
  rw [kind_get, kind_not_found] at h1
  cases h1

/-- Claim C1.  For every id and every outcome of the single-row query,
`GetBook` returns the title with no error exactly when the driver yields a row
with that title; it returns the empty title with the error `book not found`
exactly when the driver reports `sql.ErrNoRows`; and for every other driver
error it returns the empty title with the error whose text is
`failed to get book: ` followed by the text of the driver error, which is of
the backend kind. -/
theorem C1_GetBook_result_mapping {σ : Type} (S : Sql σ) (pdb : PostgresDatabase)
    (ctx : Context) (id : Int) (w : σ) :
    (∀ title : String,
      (S.QueryRowContext pdb.db ctx "SELECT title FROM books WHERE id = $1" [.int id] w).1
          = .ok title
        ↔ (pdb.GetBook S ctx id w).1 = (title, none)) ∧
    ((S.QueryRowContext pdb.db ctx "SELECT title FROM books WHERE id = $1" [.int id] w).1
          = .error .ErrNoRows
        ↔ (pdb.GetBook S ctx id w).1 = ("", some (Errorf0 "book not found"))) ∧
    (∀ err : GoError, err ≠ .ErrNoRows →
      ((S.QueryRowContext pdb.db ctx "SELECT title FROM books WHERE id = $1" [.int id] w).1
          = .error err
        ↔ (pdb.GetBook S ctx id w).1 = ("", some (Errorf "failed to get book: " err))
          ∧ (Errorf "failed to get book: " err).kind = .BackendError)) := by
  have hok := GetBook_ok S pdb ctx id w
  have hnr := GetBook_no_rows S pdb ctx id w
  have hfl := GetBook_failure S pdb ctx id w
  generalize (S.QueryRowContext pdb.db ctx "SELECT title FROM books WHERE id = $1"
    [.int id] w).1 = q at hok hnr hfl
  refine ⟨?_, ?_, ?_⟩
  · intro title
    refine ⟨hok title, ?_⟩
    intro hr
    cases q with
    | ok t =>
      have h1 := hok t rfl
      rw [h1] at hr
      cases hr
      rfl
    | error e =>
      by_cases he : e = .ErrNoRows
      · subst he
        rw [hnr rfl] at hr
        cases hr
      · rw [hfl e he rfl] at hr
        cases hr
  · refine ⟨hnr, ?_⟩
    intro hr
    cases q with
    | ok t =>
      rw [hok t rfl] at hr
      cases hr
    | error e =>
      by_cases he : e = .ErrNoRows
      · rw [he]
      · rw [hfl e he rfl] at hr
        have h2 : Errorf "failed to get book: " e = Errorf0 "book not found" := by
          simpa using hr
        exact absurd h2 (get_wrap_ne_not_found e)
  · intro err hne
    refine ⟨fun h => ⟨hfl err hne h, kind_get err⟩, ?_⟩
    rintro ⟨hr, -⟩
    cases q with
    | ok t =>
      rw [hok t rfl] at hr
      cases hr
    | error e =>
      by_cases he : e = .ErrNoRows
      · subst he
        rw [hnr rfl] at hr
        have h2 : Errorf0 "book not found" = Errorf "failed to get book: " err := by
          simpa using hr
        exact absurd h2.symm (get_wrap_ne_not_found err)
      · rw [hfl e he rfl] at hr
        have h2 : Errorf "failed to get book: " e = Errorf "failed to get book: " err := by
          simpa using hr
        rw [Errorf_injective _ e err he hne h2]

/-- Witness for C1: over the table holding `Alpha` and `Beta`, `GetBook(1)`
returns `Alpha` and `GetBook(7)` reports `book not found`; a driver error whose
own text is `book not found` is still reported as a wrapped backend failure. -/
theorem C1_GetBook_result_mapping_witness :
    (store0.GetBook World.sql ctx5 1 World.alphaBeta).1 = ("Alpha", none) ∧
    (store0.GetBook World.sql ctx5 7 World.alphaBeta).1
      = ("", some (Errorf0 "book not found")) ∧
    (store0.GetBook Answers.faulty.sql ctx5 1 ()).1
      = ("", some (.text "failed to get book: book not found")) ∧
    (GoError.text "failed to get book: book not found").kind = .BackendError :=
  ⟨((C1_GetBook_result_mapping World.sql store0 ctx5 1 World.alphaBeta).1 "Alpha").mp rfl,
    (C1_GetBook_result_mapping World.sql store0 ctx5 7 World.alphaBeta).2.1.mp rfl,
    (((C1_GetBook_result_mapping Answers.faulty.sql store0 ctx5 1 ()).2.2
      (.text "book not found") (by decide)).mp rfl).1,
    (((C1_GetBook_result_mapping Answers.faulty.sql store0 ctx5 1 ()).2.2
      (.text "book not found") (by decide)).mp rfl).2⟩

/-! ### `DeleteBook` and `AddBook` -/

theorem DeleteBook_result {σ : Type} (S : Sql σ) (pdb : PostgresDatabase) (ctx : Context)
    (id : Int) (w : σ) :
    (pdb.DeleteBook S ctx id w).1 =
      match (S.ExecContext pdb.db ctx "DELETE FROM books WHERE id = $1" [.int id] w).1 with
      | .error err => some (Errorf "failed to delete book: " err)
      | .ok result =>
        match result.RowsAffected with
        | .error err => some (Errorf "failed to get rows affected: " err)
        | .ok rowsAffected => if rowsAffected = 0 then some (Errorf0 "book not found") else none := by
  unfold PostgresDatabase.DeleteBook
  split
  · rename_i err w1 heq
    rw [heq]
  · rename_i result w1 heq
    rw [heq]
    simp only
    split
    · rfl
    · split <;> rfl

theorem DeleteBook_state {σ : Type} (S : Sql σ) (pdb : PostgresDatabase) (ctx : Context)
    (id : Int) (w : σ) :
    (pdb.DeleteBook S ctx id w).2 =
      (S.ExecContext pdb.db ctx "DELETE FROM books WHERE id = $1" [.int id] w).2 := by
  unfold PostgresDatabase.DeleteBook
  split
  · rename_i err w1 heq
    rw [heq]
  · rename_i result w1 heq
    rw [heq]
    simp only
    split
    · rfl
    · split <;> rfl

theorem AddBook_result {σ : Type} (S : Sql σ) (pdb : PostgresDatabase) (ctx : Context)
    (title : String) (w : σ) :
    (pdb.AddBook S ctx title w).1 =
      match (S.ExecContext pdb.db ctx "INSERT INTO books (title) VALUES ($1)"
        [.string title] w).1 with
      | .error err => some (Errorf "failed to add book: " err)
      | .ok _ => none := by
  unfold PostgresDatabase.AddBook
  split
  · rename_i err w1 heq
    rw [heq]
  · rename_i result w1 heq
    rw [heq]

theorem AddBook_state {σ : Type} (S : Sql σ) (pdb : PostgresDatabase) (ctx : Context)
    (title : String) (w : σ) :
    (pdb.AddBook S ctx title w).2 =
      (S.ExecContext pdb.db ctx "INSERT INTO books (title) VALUES ($1)" [.string title] w).2 := by
  unfold PostgresDatabase.AddBook
  split
  · rename_i err w1 heq
    rw [heq]
  · rename_i result w1 heq
    rw [heq]

/-- Claim C2.  For every id: when the delete statement succeeds and reports
zero affected rows, `DeleteBook` returns the error `book not found`, of the
not-found kind; when it reports at least one affected row, `DeleteBook`
returns no error; when the statement fails, or the affected-row count cannot
be read, `DeleteBook` returns an error that carries the text of the cause and
is of the backend kind, not the not-found kind. -/
theorem C2_DeleteBook_result_mapping {σ : Type} (S : Sql σ) (pdb : PostgresDatabase)
    (ctx : Context) (id : Int) (w : σ) :
    (∀ result : Result,
      (S.ExecContext pdb.db ctx "DELETE FROM books WHERE id = $1" [.int id] w).1 = .ok result →
      result.RowsAffected = .ok 0 →
      (pdb.DeleteBook S ctx id w).1 = some (Errorf0 "book not found")
        ∧ (Errorf0 "book not found").kind = .NotFoundError) ∧
    (∀ (result : Result) (n : Int),
      (S.ExecContext pdb.db ctx "DELETE FROM books WHERE id = $1" [.int id] w).1 = .ok result →
      result.RowsAffected = .ok n → 1 ≤ n →
      (pdb.DeleteBook S ctx id w).1 = none) ∧
    (∀ err : GoError,
      (S.ExecContext pdb.db ctx "DELETE FROM books WHERE id = $1" [.int id] w).1 = .error err →
      (pdb.DeleteBook S ctx id w).1 = some (Errorf "failed to delete book: " err)
        ∧ (Errorf "failed to delete book: " err).kind = .BackendError) ∧
    (∀ (result : Result) (err : GoError),
      (S.ExecContext pdb.db ctx "DELETE FROM books WHERE id = $1" [.int id] w).1 = .ok result →
      result.RowsAffected = .error err →
      (pdb.DeleteBook S ctx id w).1 = some (Errorf "failed to get rows affected: " err)
        ∧ (Errorf "failed to get rows affected: " err).kind = .BackendError) := by
  refine ⟨?_, ?_, ?_, ?_⟩
  · intro result hq hz
    rw [DeleteBook_result, hq]
    simp only [hz]
    exact ⟨by simp, kind_not_found⟩
  · intro result n hq hn hpos
    rw [DeleteBook_result, hq]
    simp only [hn]
    have hne : n ≠ 0 := by omega
    simp [hne]
  · intro err hq
    rw [DeleteBook_result, hq]
    exact ⟨rfl, kind_failed "delete book: " err⟩
  · intro result err hq hr
    rw [DeleteBook_result, hq]
    simp only [hr]
    exact ⟨trivial, kind_failed "get rows affected: " err⟩

/-- Witness for C2: deleting id 7 from the table holding ids 1 and 2 reports
`book not found`; deleting id 1 succeeds; a failed statement and an unreadable
affected-row count are reported as wrapped backend failures. -/
theorem C2_DeleteBook_result_mapping_witness :
    (store0.DeleteBook World.sql ctx5 7 World.alphaBeta).1
      = some (Errorf0 "book not found") ∧
    (store0.DeleteBook World.sql ctx5 1 World.alphaBeta).1 = none ∧
    (store0.DeleteBook Answers.down.sql ctx5 1 ()).1
      = some (.text "failed to delete book: connection refused") ∧
    (store0.DeleteBook Answers.faulty.sql ctx5 1 ()).1
      = some (.text "failed to get rows affected: no RowsAffected available") :=
  ⟨((C2_DeleteBook_result_mapping World.sql store0 ctx5 7 World.alphaBeta).1
      { RowsAffected := .ok 0 } rfl rfl).1,
    (C2_DeleteBook_result_mapping World.sql store0 ctx5 1 World.alphaBeta).2.1
      { RowsAffected := .ok 1 } 1 rfl rfl (by decide),
    ((C2_DeleteBook_result_mapping Answers.down.sql store0 ctx5 1 ()).2.2.1
      (.text "connection refused") rfl).1,
    ((C2_DeleteBook_result_mapping Answers.faulty.sql store0 ctx5 1 ()).2.2.2
      { RowsAffected := .error (.text "no RowsAffected available") }
      (.text "no RowsAffected available") rfl rfl).1⟩

/-! ### `GetAllBooks` -/

theorem scanTitles_all_ok (titles acc : List String) :
    scanTitles (titles.map Except.ok) acc = .ok (acc ++ titles) := by
  induction titles generalizing acc with
  | nil => simp [scanTitles]
  | cons t rest ih => simp [scanTitles, ih]

theorem scanTitles_first_error (titles acc : List String) (err : GoError)
    (rest : List (Except GoError String)) :
    scanTitles (titles.map Except.ok ++ .error err :: rest) acc = .error err := by
  induction titles generalizing acc with
  | nil => simp [scanTitles]
  | cons t more ih => simp [scanTitles, ih]

theorem scanTitles_ok_inv (items : List (Except GoError String)) (acc out : List String)
    (h : scanTitles items acc = .ok out) :
    ∃ titles : List String, items = titles.map Except.ok ∧ out = acc ++ titles := by
  induction items generalizing acc with
  | nil =>
    refine ⟨[], rfl, ?_⟩
    simp only [scanTitles] at h
    cases h
    simp
  | cons x rest ih =>
    cases x with
    | error e => simp [scanTitles] at h
    | ok t =>
      simp only [scanTitles] at h
      obtain ⟨ts, h1, h2⟩ := ih _ h
      exact ⟨t :: ts, by simp [h1], by simp [h2]⟩

theorem GetAllBooks_result {σ : Type} (S : Sql σ) (pdb : PostgresDatabase) (w : σ) :
    (pdb.GetAllBooks S w).1 =
      match (S.Query pdb.db "SELECT title FROM books" [] w).1 with
      | .error err => ([], some (Errorf "failed to query books: " err))
      | .ok rows =>
        match scanTitles rows.items [] with
        | .error err => ([], some (Errorf "failed to scan book title: " err))
        | .ok titles =>
          match rows.err with
          | some err => ([], some (Errorf "error iterating over books: " err))
          | none => (titles, none) := by
  unfold PostgresDatabase.GetAllBooks
  split
  · rename_i err w1 heq
    rw [heq]
  · rename_i rows w1 heq
    rw [heq]
    simp only
    split
    · rfl
    · split <;> rfl

theorem GetAllBooks_state {σ : Type} (S : Sql σ) (pdb : PostgresDatabase) (w : σ) :
    (pdb.GetAllBooks S w).2 = (S.Query pdb.db "SELECT title FROM books" [] w).2 := by
  unfold PostgresDatabase.GetAllBooks
  split
  · rename_i err w1 heq
    rw [heq]
  · rename_i rows w1 heq
    rw [heq]
    simp only
    split
    · rfl
    · split <;> rfl

theorem GetAllBooks_error {σ : Type} (S : Sql σ) (pdb : PostgresDatabase) (w : σ)
    (e : GoError) (h : (pdb.GetAllBooks S w).1.2 = some e) :
    (pdb.GetAllBooks S w).1.1 = [] ∧ e.kind = .BackendError := by
  revert e
  rw [GetAllBooks_result]
  generalize (S.Query pdb.db "SELECT title FROM books" [] w).1 = q
  intro e h
  cases q with
  | error e2 =>
    simp only at h
    cases h
    exact ⟨rfl, kind_failed "query books: " e2⟩
  | ok rows =>
    simp only at h
    cases hs : scanTitles rows.items [] with
    | error e2 =>
      rw [hs] at h
      simp only at h
      cases h
      exact ⟨by simp only [hs], kind_failed "scan book title: " e2⟩
    | ok titles =>
      cases he : rows.err with
      | some e2 =>
        rw [hs, he] at h
        simp only at h
        cases h
        exact ⟨by simp only [hs, he], kind_iterating e2⟩
      | none =>
        rw [hs, he] at h
        simp at h

/-- Claim C4.  For every result set delivered by the multi-row query: when
the query succeeds, every row scans and the cursor reports no error,
`GetAllBooks` returns with no error the titles of all rows in cursor order, and
returns the empty sequence with no error when there is no row; these are the
only cases in which it returns no error.  When the query fails, or a row fails
to scan, or the cursor reports an error after the iteration, it returns an
error carrying the text of the cause together with no title at all. -/
theorem C4_GetAllBooks_characterisation {σ : Type} (S : Sql σ) (pdb : PostgresDatabase)
    (w : σ) :
    (∀ (rows : Rows) (titles : List String),
      (S.Query pdb.db "SELECT title FROM books" [] w).1 = .ok rows →
      rows.items = titles.map Except.ok → rows.err = none →
      (pdb.GetAllBooks S w).1 = (titles, none)) ∧
    (∀ rows : Rows,
      (S.Query pdb.db "SELECT title FROM books" [] w).1 = .ok rows →
      rows.items = [] → rows.err = none →
      (pdb.GetAllBooks S w).1 = ([], none)) ∧
    (∀ err : GoError,
      (S.Query pdb.db "SELECT title FROM books" [] w).1 = .error err →
      (pdb.GetAllBooks S w).1 = ([], some (Errorf "failed to query books: " err))) ∧
    (∀ (rows : Rows) (titles : List String) (err : GoError)
        (rest : List (Except GoError String)),
      (S.Query pdb.db "SELECT title FROM books" [] w).1 = .ok rows →
      rows.items = titles.map Except.ok ++ .error err :: rest →
      (pdb.GetAllBooks S w).1 = ([], some (Errorf "failed to scan book title: " err))) ∧
    (∀ (rows : Rows) (titles : List String) (err : GoError),
      (S.Query pdb.db "SELECT title FROM books" [] w).1 = .ok rows →
      rows.items = titles.map Except.ok → rows.err = some err →
      (pdb.GetAllBooks S w).1 = ([], some (Errorf "error iterating over books: " err))) ∧
    ((pdb.GetAllBooks S w).1.2 = none →
      ∃ rows : Rows, (S.Query pdb.db "SELECT title FROM books" [] w).1 = .ok rows ∧
        rows.items = (pdb.GetAllBooks S w).1.1.map Except.ok ∧ rows.err = none) ∧
    (∀ e : GoError, (pdb.GetAllBooks S w).1.2 = some e →
      (pdb.GetAllBooks S w).1.1 = [] ∧ e.kind = .BackendError) := by
  have hlast := GetAllBooks_error S pdb w
  rw [GetAllBooks_result] at hlast ⊢
  generalize (S.Query pdb.db "SELECT title FROM books" [] w).1 = q at hlast ⊢
  refine ⟨?_, ?_, ?_, ?_, ?_, ?_, ?_⟩
  · intro rows titles hq hi he
    subst hq
    simp [hi, he, scanTitles_all_ok]
  · intro rows hq hi he
    subst hq
    simp [hi, he, scanTitles]
  · intro err hq
    subst hq
    rfl
  · intro rows titles err rest hq hi
    subst hq
    simp [hi, scanTitles_first_error]
  · intro rows titles err hq hi he
    subst hq
    simp [hi, he, scanTitles_all_ok]
  · intro h
    cases q with
    | error e => simp at h
    | ok rows =>
      refine ⟨rows, rfl, ?_⟩
      simp only at h ⊢
      cases hs : scanTitles rows.items [] with
      | error e => simp [hs] at h
      | ok titles =>
        obtain ⟨ts, h1, h2⟩ := scanTitles_ok_inv _ _ _ hs
        cases he : rows.err with
        | some e => simp [hs, he] at h
        | none =>
          simp only [List.nil_append] at h2
          subst h2
          exact ⟨h1, rfl⟩
  · exact hlast

/-- Witness for C4: the table holding `Alpha` and `Beta` gives both titles in
order and the fresh table gives the empty sequence, both with no error; a
failed query, a second row that fails to scan and a cursor that breaks after
its first row each give an error and no title, also not the title `Alpha`
already scanned. -/
theorem C4_GetAllBooks_characterisation_witness :
    (store0.GetAllBooks World.sql World.alphaBeta).1 = (["Alpha", "Beta"], none) ∧
    (store0.GetAllBooks World.sql { World.fresh with pools := [0] }).1 = ([], none) ∧
    (store0.GetAllBooks Answers.down.sql ()).1
      = ([], some (.text "failed to query books: connection refused")) ∧
    (store0.GetAllBooks Answers.faulty.sql ()).1
      = ([], some (.text
          "failed to scan book title: converting NULL to string is unsupported")) ∧
    (store0.GetAllBooks Answers.cut.sql ()).1
      = ([], some (.text "error iterating over books: unexpected EOF")) :=
  ⟨(C4_GetAllBooks_characterisation World.sql store0 World.alphaBeta).1
      { items := [.ok "Alpha", .ok "Beta"], err := none } ["Alpha", "Beta"] rfl rfl rfl,
    (C4_GetAllBooks_characterisation World.sql store0 { World.fresh with pools := [0] }).2.1
      { items := [], err := none } rfl rfl rfl,
    (C4_GetAllBooks_characterisation Answers.down.sql store0 ()).2.2.1
      (.text "connection refused") rfl,
    (C4_GetAllBooks_characterisation Answers.faulty.sql store0 ()).2.2.2.1
      Rows.badSecond ["Alpha"] (.text "converting NULL to string is unsupported")
      [.ok "Beta"] rfl rfl,
    (C4_GetAllBooks_characterisation Answers.cut.sql store0 ()).2.2.2.2.1
      Rows.broken ["Alpha"] (.text "unexpected EOF") rfl rfl rfl⟩

/-! ### Telling "not found" from everything else -/

theorem GetBook_result {σ : Type} (S : Sql σ) (pdb : PostgresDatabase) (ctx : Context)
    (id : Int) (w : σ) :
    (pdb.GetBook S ctx id w).1 =
      match (S.QueryRowContext pdb.db ctx "SELECT title FROM books WHERE id = $1"
        [.int id] w).1 with
      | .error err =>
        if err = GoError.ErrNoRows then ("", some (Errorf0 "book not found"))
        else ("", some (Errorf "failed to get book: " err))
      | .ok title => (title, none) := by
  unfold PostgresDatabase.GetBook
  split
  · rename_i err w1 heq
    rw [heq]
    simp only
    split <;> rfl
  · rename_i title w1 heq
    rw [heq]

theorem GetBook_state {σ : Type} (S : Sql σ) (pdb : PostgresDatabase) (ctx : Context)
    (id : Int) (w : σ) :
    (pdb.GetBook S ctx id w).2 =
      (S.QueryRowContext pdb.db ctx "SELECT title FROM books WHERE id = $1" [.int id] w).2 := by
  unfold PostgresDatabase.GetBook
  split
  · rename_i err w1 heq
    rw [heq]
    simp only
    split <;> rfl
  · rename_i title w1 heq
    rw [heq]

theorem kind_cases (k : ErrorKind) (h : k = .BackendError) : k ≠ .NotFoundError := by
  rw [h]
  decide

/-- Claim C3.  Whatever the text of the underlying driver error, an error
returned by `GetBook` is of the not-found kind exactly when the driver reported
`sql.ErrNoRows`, an error returned by `DeleteBook` is of the not-found kind
exactly when the statement succeeded with zero affected rows, and every error
returned by `AddBook` or `GetAllBooks` is of the backend kind.  The kind is read
off the error text, so the two kinds never coincide. -/
theorem C3_not_found_distinguishable {σ : Type} (S : Sql σ) (pdb : PostgresDatabase)
    (ctx : Context) (id : Int) (title : String) (w : σ) :
    (∀ e : GoError, (pdb.GetBook S ctx id w).1.2 = some e →
      (e.kind = .NotFoundError ↔
        (S.QueryRowContext pdb.db ctx "SELECT title FROM books WHERE id = $1" [.int id] w).1
          = .error .ErrNoRows) ∧
      (e.kind = .BackendError ↔
        (S.QueryRowContext pdb.db ctx "SELECT title FROM books WHERE id = $1" [.int id] w).1
          ≠ .error .ErrNoRows)) ∧
    (∀ e : GoError, (pdb.DeleteBook S ctx id w).1 = some e →
      (e.kind = .NotFoundError ↔
        ∃ result : Result,
          (S.ExecContext pdb.db ctx "DELETE FROM books WHERE id = $1" [.int id] w).1
            = .ok result ∧ result.RowsAffected = .ok 0) ∧
      (e.kind = .BackendError ↔
        ¬ ∃ result : Result,
          (S.ExecContext pdb.db ctx "DELETE FROM books WHERE id = $1" [.int id] w).1
            = .ok result ∧ result.RowsAffected = .ok 0)) ∧
    (∀ e : GoError, (pdb.AddBook S ctx title w).1 = some e → e.kind = .BackendError) ∧
    (∀ e : GoError, (pdb.GetAllBooks S w).1.2 = some e → e.kind = .BackendError) ∧
    (∀ (tail : String) (cause : GoError),
      (Errorf ("failed to " ++ tail) cause).kind ≠ (Errorf0 "book not found").kind) := by
  refine ⟨?_, ?_, ?_, ?_, ?_⟩
  · intro e h
    rw [GetBook_result] at h
    generalize (S.QueryRowContext pdb.db ctx "SELECT title FROM books WHERE id = $1"
      [.int id] w).1 = q at h
    cases q with
    | ok t => simp at h
    | error err =>
      by_cases he : err = .ErrNoRows
      · subst he
        simp only [if_true] at h
        cases h
        simp [kind_not_found]
      · simp only [if_neg he] at h
        cases h
        simp [kind_get, he]
  · intro e h
    rw [DeleteBook_result] at h
    generalize (S.ExecContext pdb.db ctx "DELETE FROM books WHERE id = $1"
      [.int id] w).1 = q at h
    cases q with
    | error err =>
      simp only at h
      cases h
      have hk : (Errorf "failed to delete book: " err).kind = .BackendError :=
        kind_failed "delete book: " err
      simp [hk]
    | ok result =>
      simp only at h
      cases hr : result.RowsAffected with
      | error err =>
        rw [hr] at h
        simp only at h
        cases h
        have hk : (Errorf "failed to get rows affected: " err).kind = .BackendError :=
          kind_failed "get rows affected: " err
        simp [hk, hr]
      | ok n =>
        rw [hr] at h
        simp only at h
        by_cases hn : n = 0
        · subst hn
          simp only [if_true] at h
          cases h
          simp [kind_not_found, hr]
        · simp [hn] at h
  · intro e h
    rw [AddBook_result] at h
    generalize (S.ExecContext pdb.db ctx "INSERT INTO books (title) VALUES ($1)"
      [.string title] w).1 = q at h
    cases q with
    | error err =>
      simp only at h
      cases h
      exact kind_failed "add book: " err
    | ok r => simp at h
  · intro e h
    exact (GetAllBooks_error S pdb w e h).2
  · intro tail cause
    rw [kind_failed, kind_not_found]
    decide

/-- Witness for C3: a driver error whose own text is `book not found`, wrapped
by `GetBook`, is of the backend kind, while the report for a missing row is of
the not-found kind. -/
theorem C3_not_found_distinguishable_witness :
    (GoError.text "failed to get book: book not found").kind = .BackendError ∧
    (Errorf0 "book not found").kind = .NotFoundError ∧
    (GoError.text "failed to add book: connection refused").kind = .BackendError ∧
    (GoError.text "failed to query books: connection refused").kind = .BackendError :=
  ⟨((C3_not_found_distinguishable Answers.faulty.sql store0 ctx5 1 "Alpha" ()).1
      (.text "failed to get book: book not found") rfl).2.mpr
      (by simp [Answers.sql, Answers.faulty]),
    ((C3_not_found_distinguishable World.sql store0 ctx5 7 "Alpha" World.alphaBeta).1
      (Errorf0 "book not found") (by decide)).1.mpr rfl,
    (C3_not_found_distinguishable Answers.down.sql store0 ctx5 1 "Alpha" ()).2.2.1
      (.text "failed to add book: connection refused") rfl,
    (C3_not_found_distinguishable Answers.down.sql store0 ctx5 1 "Alpha" ()).2.2.2.1
      (.text "failed to query books: connection refused") rfl⟩

/-! ### Construction -/

theorem NewPostgresDatabase_result {σ : Type} (S : Sql σ) (dsn : String) (w : σ) :
    (NewPostgresDatabase S dsn w).1 =
      match (S.Open "postgres" dsn w).1 with
      | .error err => (none, some (Errorf "failed to connect to database: " err))
      | .ok db =>
        match (S.PingContext db (.WithTimeout .Background (5 * Second))
            (S.SetConnMaxLifetime db (5 * Minute)
              (S.SetMaxIdleConns db 10 (S.SetMaxOpenConns db 25 (S.Open "postgres" dsn w).2)))).1 with
        | some err => (none, some (Errorf "failed to ping database: " err))
        | none => (some { db := db }, none) := by
  unfold NewPostgresDatabase
  split
  · rename_i err w1 heq
    rw [heq]
  · rename_i db w1 heq
    rw [heq]
    simp only
    split
    · rename_i err w5 heq2
      rw [heq2]
    · rename_i w5 heq2
      rw [heq2]

/-- Claim C7.  For every connection string, `NewPostgresDatabase` returns a
store only if `sql.Open` succeeded and the ping of the pool it opened, under a
five-second timeout, succeeded; when the open fails or the ping fails it
returns no store together with an error of the backend kind that carries the
text of the cause; and in every case it returns exactly one of a store and an
error. -/
theorem C7_construction_validated {σ : Type} (S : Sql σ) (dsn : String) (w : σ) :
    (∀ pdb : PostgresDatabase, (NewPostgresDatabase S dsn w).1.1 = some pdb →
      (NewPostgresDatabase S dsn w).1.2 = none ∧
      (S.Open "postgres" dsn w).1 = .ok pdb.db ∧
      (S.PingContext pdb.db (.WithTimeout .Background (5 * Second))
        (S.SetConnMaxLifetime pdb.db (5 * Minute)
          (S.SetMaxIdleConns pdb.db 10
            (S.SetMaxOpenConns pdb.db 25 (S.Open "postgres" dsn w).2)))).1 = none) ∧
    (∀ err : GoError, (S.Open "postgres" dsn w).1 = .error err →
      (NewPostgresDatabase S dsn w).1
          = (none, some (Errorf "failed to connect to database: " err))
        ∧ (Errorf "failed to connect to database: " err).kind = .BackendError) ∧
    (∀ (db : Handle) (err : GoError), (S.Open "postgres" dsn w).1 = .ok db →
      (S.PingContext db (.WithTimeout .Background (5 * Second))
        (S.SetConnMaxLifetime db (5 * Minute)
          (S.SetMaxIdleConns db 10
            (S.SetMaxOpenConns db 25 (S.Open "postgres" dsn w).2)))).1 = some err →
      (NewPostgresDatabase S dsn w).1
          = (none, some (Errorf "failed to ping database: " err))
        ∧ (Errorf "failed to ping database: " err).kind = .BackendError) ∧
    ((NewPostgresDatabase S dsn w).1.1 = none ↔ (NewPostgresDatabase S dsn w).1.2 ≠ none) := by
  rw [NewPostgresDatabase_result]
  generalize (S.Open "postgres" dsn w).2 = w1
  generalize (S.Open "postgres" dsn w).1 = o
  refine ⟨?_, ?_, ?_, ?_⟩
  · intro pdb h
    cases o with
    | error err => simp at h
    | ok db =>
      simp only at h ⊢
      cases hp : (S.PingContext db (.WithTimeout .Background (5 * Second))
        (S.SetConnMaxLifetime db (5 * Minute)
          (S.SetMaxIdleConns db 10 (S.SetMaxOpenConns db 25 w1)))).1 with
      | some err =>
        rw [hp] at h
        simp at h
      | none =>
        rw [hp] at h
        simp only [Option.some.injEq] at h
        subst h
        simp [hp]
  · intro err ho
    subst ho
    exact ⟨rfl, kind_failed "connect to database: " err⟩
  · intro db err ho hp
    subst ho
    simp only [hp]
    exact ⟨trivial, kind_failed "ping database: " err⟩
  · cases o with
    | error err => simp
    | ok db =>
      simp only
      cases hp : (S.PingContext db (.WithTimeout .Background (5 * Second))
        (S.SetConnMaxLifetime db (5 * Minute)
          (S.SetMaxIdleConns db 10 (S.SetMaxOpenConns db 25 w1)))).1 with
      | some err => simp
      | none => simp

/-- Witness for C7: the fresh backend yields the store on pool 0 and no
error; a failing `sql.Open` and a failing ping each yield no store and the
wrapped cause. -/
theorem C7_construction_validated_witness :
    (NewPostgresDatabase World.sql connStr World.fresh).1 = (some store0, none) ∧
    (World.sql.Open "postgres" connStr World.fresh).1 = .ok 0 ∧
    (NewPostgresDatabase Answers.down.sql connStr ()).1
      = (none, some (.text
          "failed to connect to database: missing \"=\" after \"x\" in connection info string")) ∧
    (NewPostgresDatabase Answers.faulty.sql connStr ()).1
      = (none, some (.text "failed to ping database: connection refused")) :=
  ⟨by decide,
    ((C7_construction_validated World.sql connStr World.fresh).1 store0 (by decide)).2.1,
    ((C7_construction_validated Answers.down.sql connStr ()).2.1
      (.text "missing \"=\" after \"x\" in connection info string") rfl).1,
    ((C7_construction_validated Answers.faulty.sql connStr ()).2.2.1 0
      (.text "connection refused") rfl rfl).1⟩

/-! ### One statement per operation -/

theorem traced_results {σ : Type} (S : Sql σ) (pdb : PostgresDatabase) (ctx : Context)
    (id : Int) (title : String) (w : σ) (journal : List Call) :
    (pdb.GetBook S.traced ctx id (w, journal)).1 = (pdb.GetBook S ctx id w).1 ∧
    (pdb.AddBook S.traced ctx title (w, journal)).1 = (pdb.AddBook S ctx title w).1 ∧
    (pdb.DeleteBook S.traced ctx id (w, journal)).1 = (pdb.DeleteBook S ctx id w).1 ∧
    (pdb.GetAllBooks S.traced (w, journal)).1 = (pdb.GetAllBooks S w).1 := by
  refine ⟨?_, ?_, ?_, ?_⟩
  · rw [GetBook_result, GetBook_result]
    rfl
  · rw [AddBook_result, AddBook_result]
    rfl
  · rw [DeleteBook_result, DeleteBook_result]
    rfl
  · rw [GetAllBooks_result, GetAllBooks_result]
    rfl

/-- Claim C9.  For every backend, whatever it answers, and every input, each
of `GetBook`, `AddBook`, `DeleteBook` and `GetAllBooks` adds exactly one call to
the journal: a statement whose text is a constant that does not depend on the
id or title, with the id or title as its only positional argument, and with
no argument for `GetAllBooks`.  Nothing is sent a second time after a
failure. -/
theorem C9_one_fixed_statement {σ : Type} (S : Sql σ) (pdb : PostgresDatabase)
    (ctx : Context) (id : Int) (title : String) (w : σ) (journal : List Call) :
    (pdb.GetBook S.traced ctx id (w, journal)).2.2 =
      journal ++ [.QueryRowContext pdb.db ctx "SELECT title FROM books WHERE id = $1"
        [.int id]] ∧
    (pdb.AddBook S.traced ctx title (w, journal)).2.2 =
      journal ++ [.ExecContext pdb.db ctx "INSERT INTO books (title) VALUES ($1)"
        [.string title]] ∧
    (pdb.DeleteBook S.traced ctx id (w, journal)).2.2 =
      journal ++ [.ExecContext pdb.db ctx "DELETE FROM books WHERE id = $1" [.int id]] ∧
    (pdb.GetAllBooks S.traced (w, journal)).2.2 =
      journal ++ [.Query pdb.db "SELECT title FROM books" []] := by
  refine ⟨?_, ?_, ?_, ?_⟩
  · rw [GetBook_state]
    rfl
  · rw [AddBook_state]
    rfl
  · rw [DeleteBook_state]
    rfl
  · rw [GetAllBooks_state]
    rfl

/-! ### The operations over the well-behaved backend -/

theorem refusal_none (w : World) (h : Handle) (ctx : Context)
    (hopen : w.isOpen h = true) (hctx : w.expired ctx = false) : w.refusal h ctx = none := by
  simp [World.refusal, hopen, hctx]

theorem refusal_background (w : World) (h : Handle) (hopen : w.isOpen h = true) :
    w.refusal h .Background = none :=
  refusal_none w h .Background hopen rfl

theorem GetAllBooks_world (w : World) (pdb : PostgresDatabase)
    (hopen : w.isOpen pdb.db = true) :
    pdb.GetAllBooks World.sql w = ((w.rows.map Prod.snd, none), w) := by
  have hscan : scanTitles (List.map (fun r : Int × String => Except.ok r.2) w.rows) []
      = .ok (w.rows.map Prod.snd) := by
    have h := scanTitles_all_ok (w.rows.map Prod.snd) []
    simpa [List.map_map, Function.comp_def] using h
  simp [PostgresDatabase.GetAllBooks, World.sql, refusal_background w pdb.db hopen, hscan]

theorem AddBook_world (w : World) (pdb : PostgresDatabase) (ctx : Context) (title : String)
    (hopen : w.isOpen pdb.db = true) (hctx : w.expired ctx = false) :
    pdb.AddBook World.sql ctx title w =
      (none, { w with rows := w.rows ++ [(w.nextId, title)], nextId := w.nextId + 1 }) := by
  simp [PostgresDatabase.AddBook, World.sql, refusal_none w pdb.db ctx hopen hctx]

theorem DeleteBook_world (w : World) (pdb : PostgresDatabase) (ctx : Context) (id : Int)
    (hopen : w.isOpen pdb.db = true) (hctx : w.expired ctx = false) :
    pdb.DeleteBook World.sql ctx id w =
      (if w.rows.countP (fun r => decide (r.1 = id)) = 0
        then some (Errorf0 "book not found") else none,
       { w with rows := w.rows.filter (fun r => !decide (r.1 = id)) }) := by
  simp only [PostgresDatabase.DeleteBook, World.sql, refusal_none w pdb.db ctx hopen hctx]
  simp only [if_true]
  by_cases h0 : w.rows.countP (fun r => decide (r.1 = id)) = 0
  · simp [h0]
  · have h1 : ((w.rows.countP (fun r => decide (r.1 = id)) : Nat) : Int) ≠ 0 := by
      exact_mod_cast h0
    simp [h0, h1]

theorem GetBook_world (w : World) (pdb : PostgresDatabase) (ctx : Context) (id : Int)
    (hopen : w.isOpen pdb.db = true) (hctx : w.expired ctx = false) :
    pdb.GetBook World.sql ctx id w =
      (match w.rows.find? (fun r => decide (r.1 = id)) with
        | some r => (r.2, none)
        | none => ("", some (Errorf0 "book not found")),
       w) := by
  simp only [PostgresDatabase.GetBook, World.sql, refusal_none w pdb.db ctx hopen hctx]
  simp only [if_true]
  cases w.rows.find? (fun r => decide (r.1 = id)) with
  | some r => rfl
  | none => simp

theorem isOpen_rows (w : World) (h : Handle) (rows : List (Int × String)) (n : Int) :
    World.isOpen { w with rows := rows, nextId := n } h = w.isOpen h := rfl

/-- Claim C5.  Over the well-behaved backend, with the pool open and the
caller's deadline not elapsing: for every table state and every title `T`
(so for every non-empty one, and also when `T` is already present),
`GetAllBooks`, then `AddBook(T)`, then `GetAllBooks` all succeed, `T` occurs in
the second sequence exactly once more than in the first, and every other
title occurs as often as before. -/
theorem C5_AddBook_then_GetAllBooks (w : World) (pdb : PostgresDatabase) (ctx : Context)
    (T : String) (hopen : w.isOpen pdb.db = true) (hctx : w.expired ctx = false) :
    (pdb.GetAllBooks World.sql w).1.2 = none ∧
    (pdb.AddBook World.sql ctx T (pdb.GetAllBooks World.sql w).2).1 = none ∧
    (pdb.GetAllBooks World.sql
      (pdb.AddBook World.sql ctx T (pdb.GetAllBooks World.sql w).2).2).1.2 = none ∧
    (pdb.GetAllBooks World.sql
      (pdb.AddBook World.sql ctx T (pdb.GetAllBooks World.sql w).2).2).1.1.count T
        = (pdb.GetAllBooks World.sql w).1.1.count T + 1 ∧
    (∀ U : String, U ≠ T →
      (pdb.GetAllBooks World.sql
        (pdb.AddBook World.sql ctx T (pdb.GetAllBooks World.sql w).2).2).1.1.count U
          = (pdb.GetAllBooks World.sql w).1.1.count U) := by
  rw [GetAllBooks_world w pdb hopen]
  simp only
  rw [AddBook_world w pdb ctx T hopen hctx]
  simp only
  rw [GetAllBooks_world _ pdb (by rw [isOpen_rows]; exact hopen)]
  simp only [List.map_append, List.map_cons, List.map_nil, List.count_append]
  refine ⟨trivial, trivial, trivial, ?_, ?_⟩
  · simp
  · intro U hU
    simp [List.count_cons, hU.symm]

/-- Witness for C5: adding the title `Alpha`, already present once, to the
table holding `Alpha` and `Beta` makes it occur twice. -/
theorem C5_AddBook_then_GetAllBooks_witness :
    World.alphaBeta.isOpen store0.db = true ∧ World.alphaBeta.expired ctx5 = false ∧
    (store0.GetAllBooks World.sql World.alphaBeta).1 = (["Alpha", "Beta"], none) ∧
    (store0.GetAllBooks World.sql
      (store0.AddBook World.sql ctx5 "Alpha"
        (store0.GetAllBooks World.sql World.alphaBeta).2).2).1.1.count "Alpha"
      = (store0.GetAllBooks World.sql World.alphaBeta).1.1.count "Alpha" + 1 := by
  have h := C5_AddBook_then_GetAllBooks World.alphaBeta store0 ctx5 "Alpha"
    (by decide) (by decide)
  exact ⟨by decide, by decide, by decide, h.2.2.2.1⟩

theorem filter_length_of_nodup (rows : List (Int × String)) (id : Int)
    (hnd : (rows.map Prod.fst).Nodup) (hex : ∃ r ∈ rows, r.1 = id) :
    (rows.filter (fun r => !decide (r.1 = id))).length + 1 = rows.length := by
  induction rows with
  | nil =>
    obtain ⟨r, hr, -⟩ := hex
    cases hr
  | cons r rest ih =>
    rw [List.map_cons, List.nodup_cons] at hnd
    by_cases hrid : r.1 = id
    · have hall : ∀ x ∈ rest, (!decide (x.1 = id)) = true := by
        intro x hx
        have hne : x.1 ≠ id := by
          intro hxid
          apply hnd.1
          rw [hrid, ← hxid]
          exact List.mem_map_of_mem Prod.fst hx
        simp [hne]
      have hf : rest.filter (fun r => !decide (r.1 = id)) = rest :=
        List.filter_eq_self.mpr hall
      simp [List.filter_cons, hrid, hf]
    · have hex2 : ∃ x ∈ rest, x.1 = id := by
        obtain ⟨x, hx, hxid⟩ := hex
        rcases List.mem_cons.mp hx with h1 | h1
        · rw [h1] at hxid
          exact absurd hxid hrid
        · exact ⟨x, h1, hxid⟩
      have := ih hnd.2 hex2
      simp [List.filter_cons, hrid]
      omega

/-- Claim C6.  Over the well-behaved backend whose table keeps ids unique,
with the pool open and the caller's deadline not elapsing: for every table
state and every id, when no record has the id `DeleteBook` returns the error
`book not found` and leaves the backend unchanged; when a record has the id
`DeleteBook` succeeds, a following `GetBook` of the id returns `book not found`,
exactly the records with another id remain, one record is gone, and
`GetAllBooks` returns the titles of the remaining records. -/
theorem C6_DeleteBook_over_table (w : World) (pdb : PostgresDatabase) (ctx : Context)
    (id : Int) (hopen : w.isOpen pdb.db = true) (hctx : w.expired ctx = false)
    (huniq : w.uniqueIds) :
    ((∀ r ∈ w.rows, r.1 ≠ id) →
      (pdb.DeleteBook World.sql ctx id w).1 = some (Errorf0 "book not found") ∧
      (Errorf0 "book not found").kind = .NotFoundError ∧
      (pdb.DeleteBook World.sql ctx id w).2 = w) ∧
    ((∃ r ∈ w.rows, r.1 = id) →
      (pdb.DeleteBook World.sql ctx id w).1 = none ∧
      (pdb.GetBook World.sql ctx id (pdb.DeleteBook World.sql ctx id w).2).1
        = ("", some (Errorf0 "book not found")) ∧
      (∀ r : Int × String,
        r ∈ (pdb.DeleteBook World.sql ctx id w).2.rows ↔ r ∈ w.rows ∧ r.1 ≠ id) ∧
      (pdb.DeleteBook World.sql ctx id w).2.rows.length + 1 = w.rows.length ∧
      (pdb.GetAllBooks World.sql (pdb.DeleteBook World.sql ctx id w).2).1
        = ((w.rows.filter (fun r => !decide (r.1 = id))).map Prod.snd, none)) := by
  rw [DeleteBook_world w pdb ctx id hopen hctx]
  simp only
  refine ⟨?_, ?_⟩
  · intro hnone
    have hall : ∀ x ∈ w.rows, (!decide (x.1 = id)) = true := by
      intro x hx
      simp [hnone x hx]
    have hf : w.rows.filter (fun r => !decide (r.1 = id)) = w.rows :=
      List.filter_eq_self.mpr hall
    have hc : w.rows.countP (fun r => decide (r.1 = id)) = 0 := by
      rw [List.countP_eq_zero]
      intro x hx
      simp [hnone x hx]
    refine ⟨by simp [hc], kind_not_found, ?_⟩
    rw [hf]
  · intro hex
    have hc : w.rows.countP (fun r => decide (r.1 = id)) ≠ 0 := by
      rw [Ne, List.countP_eq_zero]
      intro hall
      obtain ⟨r, hr, hrid⟩ := hex
      have := hall r hr
      simp [hrid] at this
    have hopen2 : World.isOpen { w with rows := w.rows.filter (fun r => !decide (r.1 = id)) }
        pdb.db = true := hopen
    have hctx2 : World.expired { w with rows := w.rows.filter (fun r => !decide (r.1 = id)) }
        ctx = false := hctx
    refine ⟨by simp [hc], ?_, ?_, ?_, ?_⟩
    · rw [GetBook_world _ pdb ctx id hopen2 hctx2]
      simp only
      have hfind : (w.rows.filter (fun r => !decide (r.1 = id))).find?
          (fun r => decide (r.1 = id)) = none := by
        rw [List.find?_eq_none]
        intro x hx
        have := (List.mem_filter.mp hx).2
        simpa using this
      rw [hfind]
    · intro r
      simp [List.mem_filter]
    · exact filter_length_of_nodup w.rows id huniq.1 hex
    · rw [GetAllBooks_world _ pdb hopen2]

theorem alphaBeta_uniqueIds : World.alphaBeta.uniqueIds := by
  refine ⟨by decide, ?_⟩
  intro r hr
  simp only [World.alphaBeta, List.mem_cons, List.mem_singleton] at hr
  rcases hr with h | h | h
  · rw [h]
    decide
  · rw [h]
    decide
  · cases h

/-- Witness for C6: the scenario of the spec.  From the fresh backend,
construction and the inserts of `Alpha` and `Beta` give the table with ids 1
and 2; `GetAllBooks` returns both; deleting id 1 succeeds, `GetBook(1)` then
reports `book not found`, and `GetAllBooks` returns only `Beta`; deleting the
id 7, never inserted, reports `book not found` and changes nothing. -/
theorem C6_DeleteBook_over_table_witness :
    World.alphaBeta.isOpen store0.db = true ∧ World.alphaBeta.expired ctx5 = false ∧
    World.alphaBeta.uniqueIds ∧
    (NewPostgresDatabase World.sql connStr World.fresh).1 = (some store0, none) ∧
    (store0.AddBook World.sql ctx5 "Beta"
      (store0.AddBook World.sql ctx5 "Alpha"
        (NewPostgresDatabase World.sql connStr World.fresh).2).2).2 = World.alphaBeta ∧
    (store0.GetAllBooks World.sql World.alphaBeta).1 = (["Alpha", "Beta"], none) ∧
    (store0.DeleteBook World.sql ctx5 1 World.alphaBeta).1 = none ∧
    (store0.GetBook World.sql ctx5 1 (store0.DeleteBook World.sql ctx5 1 World.alphaBeta).2).1
      = ("", some (Errorf0 "book not found")) ∧
    (store0.GetAllBooks World.sql (store0.DeleteBook World.sql ctx5 1 World.alphaBeta).2).1
      = (["Beta"], none) ∧
    (store0.DeleteBook World.sql ctx5 7 World.alphaBeta).1 = some (Errorf0 "book not found") ∧
    (store0.DeleteBook World.sql ctx5 7 World.alphaBeta).2 = World.alphaBeta := by
  have hdel := (C6_DeleteBook_over_table World.alphaBeta store0 ctx5 1 (by decide) (by decide)
    alphaBeta_uniqueIds).2 ⟨(1, "Alpha"), by simp [World.alphaBeta], rfl⟩
  have hmiss := (C6_DeleteBook_over_table World.alphaBeta store0 ctx5 7 (by decide) (by decide)
    alphaBeta_uniqueIds).1 (by
      intro r hr
      simp only [World.alphaBeta, List.mem_cons, List.mem_singleton] at hr
      rcases hr with h | h | h
      · rw [h]
        decide
      · rw [h]
        decide
      · cases h)
  refine ⟨by decide, by decide, alphaBeta_uniqueIds, by decide, by decide, by decide,
    hdel.1, hdel.2.1, ?_, hmiss.1, hmiss.2.2⟩
  rw [hdel.2.2.2.2]
  decide

/-! ### Deadlines and pool release: what the code does -/

/-- Claim C8, evaluated at the failing input.  The backend answers in six
seconds and the caller's context has a five-second timeout, so the caller's
deadline elapses first.  `GetBook`, `AddBook` and `DeleteBook` receive the
context and fail with an error of the backend kind; `GetAllBooks` has no
context parameter, runs its query under `Background`, and returns the titles
with no error. -/
theorem C8_GetAllBooks_ignores_deadline :
    World.slow.isOpen store0.db = true ∧ World.slow.expired ctx5 = true ∧
    (store0.GetBook World.sql ctx5 1 World.slow).1
      = ("", some (.text "failed to get book: context deadline exceeded")) ∧
    (store0.AddBook World.sql ctx5 "Beta" World.slow).1
      = some (.text "failed to add book: context deadline exceeded") ∧
    (store0.DeleteBook World.sql ctx5 1 World.slow).1
      = some (.text "failed to delete book: context deadline exceeded") ∧
    (store0.GetAllBooks World.sql World.slow).1 = (["Alpha"], none) ∧
    (store0.GetAllBooks (World.sql.traced) (World.slow, [])).2.2
      = [.Query 0 "SELECT title FROM books" []] := by
  refine ⟨by decide, by decide, by decide, by decide, by decide, by decide, by decide⟩

theorem NewPostgresDatabase_store_opened {σ : Type} (S : Sql σ) (dsn : String) (w : σ)
    (pdb : PostgresDatabase) (h : (NewPostgresDatabase S dsn w).1.1 = some pdb) :
    (S.Open "postgres" dsn w).1 = .ok pdb.db := by
  rw [NewPostgresDatabase_result] at h
  generalize (S.Open "postgres" dsn w).2 = w1 at h
  cases ho : (S.Open "postgres" dsn w).1 with
  | error err =>
    rw [ho] at h
    simp at h
  | ok db =>
    rw [ho] at h
    simp only at h
    cases hp : (S.PingContext db (.WithTimeout .Background (5 * Second))
      (S.SetConnMaxLifetime db (5 * Minute)
        (S.SetMaxIdleConns db 10 (S.SetMaxOpenConns db 25 w1)))).1 with
    | some err =>
      rw [hp] at h
      simp at h
    | none =>
      rw [hp] at h
      simp only [Option.some.injEq] at h
      rw [← h]

theorem NewPostgresDatabase_traced {σ : Type} (S : Sql σ) (dsn : String) (w : σ)
    (journal : List Call) :
    (NewPostgresDatabase S.traced dsn (w, journal)).1 = (NewPostgresDatabase S dsn w).1 ∧
    (NewPostgresDatabase S.traced dsn (w, journal)).2.2 =
      journal ++
        match (S.Open "postgres" dsn w).1 with
        | .error _ => [.Open "postgres" dsn]
        | .ok db =>
          [.Open "postgres" dsn, .SetMaxOpenConns db 25, .SetMaxIdleConns db 10,
           .SetConnMaxLifetime db (5 * Minute),
           .PingContext db (.WithTimeout .Background (5 * Second))] := by
  unfold NewPostgresDatabase
  simp only [Sql.traced]
  cases ho : S.Open "postgres" dsn w with
  | mk r w1 =>
    cases r with
    | error err => simp
    | ok db =>
      simp only
      cases hp : S.PingContext db (.WithTimeout .Background (5 * Second))
          (S.SetConnMaxLifetime db (5 * Minute)
            (S.SetMaxIdleConns db 10 (S.SetMaxOpenConns db 25 w1))) with
      | mk e w5 =>
        cases e with
        | some err => simp
        | none => simp

/-- Whatever the backend answers, `NewPostgresDatabase` never calls `Close`. -/
theorem NewPostgresDatabase_never_closes {σ : Type} (S : Sql σ) (dsn : String) (w : σ)
    (h : Handle) :
    Call.Close h ∉ (NewPostgresDatabase S.traced dsn (w, [])).2.2 := by
  rw [(NewPostgresDatabase_traced S dsn w []).2]
  cases (S.Open "postgres" dsn w).1 with
  | error err => simp
  | ok db => simp

/-- Whatever the backend answers, once construction has succeeded `main` sends
its three statements and then closes the pool, once, as its last call. -/
theorem main_closes_once {σ : Type} (S : Sql σ) (w : σ) (pdb : PostgresDatabase)
    (h : (NewPostgresDatabase S connStr w).1 = (some pdb, none)) :
    (main S.traced (w, [])).2.2 =
      [.Open "postgres" connStr, .SetMaxOpenConns pdb.db 25, .SetMaxIdleConns pdb.db 10,
       .SetConnMaxLifetime pdb.db (5 * Minute), .PingContext pdb.db ctx5,
       .ExecContext pdb.db ctx5 "INSERT INTO books (title) VALUES ($1)"
         [.string "The Go Programming Language"],
       .QueryRowContext pdb.db ctx5 "SELECT title FROM books WHERE id = $1" [.int 1],
       .ExecContext pdb.db ctx5 "DELETE FROM books WHERE id = $1" [.int 1],
       .Close pdb.db] := by
  have h1 := (NewPostgresDatabase_traced S connStr w []).1
  have h2 := (NewPostgresDatabase_traced S connStr w []).2
  have hopen : (S.Open "postgres" connStr w).1 = .ok pdb.db :=
    NewPostgresDatabase_store_opened S connStr w pdb (by rw [h])
  rw [h] at h1
  rw [hopen] at h2
  simp only [List.nil_append] at h2
  unfold main
  cases hN : NewPostgresDatabase S.traced connStr (w, []) with
  | mk r wj =>
    rw [hN] at h1 h2
    simp only at h1 h2
    subst h1
    simp only
    rw [PostgresDatabase.Close]
    simp only [Sql.traced, DeleteBook_state, GetBook_state, AddBook_state, h2]
    rfl

/-- Claim C10, evaluated at the failing input.  Against a backend that does
not answer the ping within five seconds, `NewPostgresDatabase` opens pool 0,
fails, and returns with that pool still open and never closed: its journal
holds no `Close`, and `main` then ends through `log.Fatalf` with the pool
open.  On the successful path `main` closes the pool exactly once. -/
theorem C10_pool_left_open_on_ping_failure :
    (NewPostgresDatabase World.sql connStr World.unreachable).1
      = (none, some (.text "failed to ping database: context deadline exceeded")) ∧
    (NewPostgresDatabase World.sql connStr World.unreachable).2.pools = [0] ∧
    (NewPostgresDatabase World.sql connStr World.unreachable).2.isOpen 0 = true ∧
    (NewPostgresDatabase World.sql.traced connStr (World.unreachable, [])).2.2
      = [.Open "postgres" connStr, .SetMaxOpenConns 0 25, .SetMaxIdleConns 0 10,
         .SetConnMaxLifetime 0 (5 * Minute), .PingContext 0 ctx5] ∧
    (main World.sql World.unreachable).2.pools = [0] ∧
    (main World.sql World.unreachable).1
      = [.fatal "Failed to connect to database: failed to ping database: context deadline exceeded"] ∧
    (main World.sql World.fresh).2.pools = [1] ∧
    (main World.sql World.fresh).1
      = [.stdout "Book added successfully",
         .stdout "Book title: The Go Programming Language",
         .stdout "Book deleted successfully"] := by
  refine ⟨by decide, by decide, by decide, by decide, by decide, by decide, by decide,
    by decide⟩

end BookDB
